import Mathlib

/-!
Shallow embedding of the lead-normalization and CRM-enrichment pipeline of
`src/index.js` (odoo-ai-connector, the Gemini + Odoo variant).

JavaScript values that flow through `normalizeAIResult` are modelled by the
inductive type `JSVal`; JavaScript exceptions (TypeError on property access
of null/undefined, rejected fetch promises, `resp.json()` parse failures,
`throw new Error(...)`) are modelled by `Except JsError`.  Numbers are
modelled as integers (no claim depends on float behaviour) and object keys
are assumed unique (JSON.parse keeps one binding per key).
-/

/-- Errors a JavaScript execution of the embedded functions can raise. -/
inductive JsError where
  | typeError
  | fetchReject
  | jsonParse
  | configMissing
  | authHttp (status : Nat)
  | authFailed
  | createHttp (status : Nat)
  | odooAppError (msg : String)
  | nonNumericId
deriving DecidableEq, Repr

/-- A JavaScript/JSON value. -/
inductive JSVal where
  | null
  | undefined
  | bool (b : Bool)
  | num (n : Int)
  | str (s : String)
  | arr (elems : List JSVal)
  | obj (fields : List (String × JSVal))

/-- JavaScript truthiness. -/
def truthy : JSVal → Bool
  | .null => false
  | .undefined => false
  | .bool b => b
  | .num n => n != 0
  | .str s => s ≠ ""
  | .arr _ => true
  | .obj _ => true

/-- JavaScript `a || b` (short-circuiting disjunction on values). -/
def jsOr (a b : JSVal) : JSVal :=
  if truthy a then a else b

/-- JavaScript property access `v[k]`: a TypeError on null/undefined,
the bound value (or `undefined`) on objects, `undefined` on other
primitives (we only access keys that are not built-in members). -/
def getProp : JSVal → String → Except JsError JSVal
  | .null, _ => .error .typeError
  | .undefined, _ => .error .typeError
  | .obj fs, k => .ok ((fs.lookup k).getD .undefined)
  | _, _ => .ok .undefined

/-- JavaScript `v.length` (only arrays and strings have one here). -/
def jsLength : JSVal → JSVal
  | .arr xs => .num xs.length
  | .str s => .num s.length
  | _ => .undefined

/-- JavaScript `v[0]` on a value known not to be null/undefined. -/
def jsIndex0 : JSVal → JSVal
  | .arr (x :: _) => x
  | .str s =>
    match s.data with
    | [] => .undefined
    | c :: _ => .str (String.mk [c])
  | _ => .undefined

/-- JavaScript `s.toLowerCase()`, modelled character-wise with the ASCII
case map (the source only compares against ASCII-lowercase literals). -/
def toLowerCase (s : String) : String :=
  String.mk (s.data.map Char.toLower)

/-- JavaScript `s.startsWith(p)`. -/
def strStartsWith (s p : String) : Bool :=
  p.data.isPrefixOf s.data

/-- A JavaScript whitespace character (the ones relevant here). -/
def isWsChar (c : Char) : Bool :=
  c = ' ' ∨ c = '\t' ∨ c = '\n' ∨ c = '\r'

/-- JavaScript `s.trim()`: strips leading and trailing whitespace. -/
def jsTrim (s : String) : String :=
  String.mk (((s.data.dropWhile isWsChar).reverse.dropWhile isWsChar).reverse)

/-- The normalized analysis record produced by `normalizeAIResult`
(src/index.js lines 199-218).  Fields keep the source's JavaScript
values: the function performs no validation beyond `||`-defaulting. -/
structure LeadAnalysisJS where
  intencion : JSVal
  idioma : JSVal
  pais : JSVal
  urgencia : JSVal
  resumen : JSVal
  pregunta : JSVal
  datos_detectados : JSVal
  raw : JSVal

/-- `parsed[k1] || parsed[k2] || dflt`, with JS short-circuit order. -/
def getField (parsed : JSVal) (k1 k2 : String) (dflt : JSVal) :
    Except JsError JSVal := do
  let v1 ← getProp parsed k1
  if truthy v1 then pure v1
  else do
    let v2 ← getProp parsed k2
    pure (if truthy v2 then v2 else dflt)

/-- `parsed[k] || dflt`. -/
def getField1 (parsed : JSVal) (k : String) (dflt : JSVal) :
    Except JsError JSVal := do
  let v ← getProp parsed k
  pure (if truthy v then v else dflt)

/-- `normalizeAIResult` (src/index.js lines 199-218). -/
def normalizeAIResult (parsed : JSVal) : Except JsError LeadAnalysisJS := do
  let intencion ← getField parsed "intencion" "intent" (.str "otros")
  let idioma ← getField parsed "idioma" "language" (.str "es")
  let pais ← getField parsed "pais" "country" (.str "Desconocido")
  let urgencia ← getField parsed "urgencia" "urgency" (.str "media")
  let resumen ← getField1 parsed "resumen" (.str "")
  let pregunta ← getField1 parsed "pregunta" (.str "")
  let datos_detectados ← getField parsed "datos_detectados" "data" (.obj [])
  pure ⟨intencion, idioma, pais, urgencia, resumen, pregunta,
        datos_detectados, parsed⟩

example :
    normalizeAIResult (.obj []) =
      .ok ⟨.str "otros", .str "es", .str "Desconocido", .str "media",
           .str "", .str "", .obj [], .obj []⟩ := rfl

example : normalizeAIResult .null = .error .typeError := rfl

/-!
Typed model of the enrichment layer.  The enrichment functions
(`buildTagNames`, `buildSuggestedReply`, `createOdooLead`) consume the
normalized analysis; following the spec's data model (§3) the analysis
fields are strings and `datos_detectados` is a record of three optional
strings, while the request body is a record of optional strings.
-/

/-- The `datos_detectados` sub-record (spec §3). -/
structure DetectedData where
  cantidad : Option String
  ubicacion : Option String
  plazo : Option String

/-- A normalized lead analysis with string-typed fields (spec §3),
as consumed by the enrichment functions in src/index.js. -/
structure AIRecord where
  intencion : String
  idioma : String
  pais : String
  urgencia : String
  resumen : String
  pregunta : String
  datos_detectados : DetectedData

/-- The request body (`originalBody`): every field the enrichment and
lead-creation code reads, each an optional string (absent = undefined). -/
structure LeadBody where
  origen : Option String
  source : Option String
  canal : Option String
  channel : Option String
  nombre : Option String
  name : Option String
  contact_name : Option String
  email : Option String
  email_from : Option String
  phone : Option String
  telefono : Option String
  text : Option String
  mensaje : Option String
  message : Option String
  content : Option String

/-- A request body with every field absent. -/
def emptyBody : LeadBody :=
  ⟨none, none, none, none, none, none, none, none, none, none, none,
   none, none, none, none⟩

/-- JavaScript `o || d` for an optional string `o`: the string if present
and non-empty (truthy), otherwise the fallback `d`. -/
def jsOrS (o : Option String) (d : String) : String :=
  match o with
  | some s => if s = "" then d else s
  | none => d

/-- The intent switch of `buildTagNames` (src/index.js lines 446-472):
maps the lowercased intent to exactly one pushed tag. -/
def intentTag (intencion : String) : String :=
  if intencion = "maquina" then "Máquina de Pizzas y comida"
  else if intencion = "pizzas" then "Pizza sector Horeca"
  else if intencion = "ambos" then "Ambos"
  else if intencion = "operador" then "Operador vending"
  else if intencion = "soporte" then "IA: Soporte técnico"
  else if intencion = "info" then "IA: Información general"
  else if intencion = "otros" then "Otros"
  else "IA: Revisar manualmente"

/-- The urgency tags pushed by `buildTagNames` (src/index.js lines 475-478). -/
def urgenciaTags (urg : String) : List String :=
  if urg = "alta" then ["Urgencia: alta"]
  else if urg = "media" then ["Urgencia: media"]
  else if urg = "baja" then ["Urgencia: baja"]
  else []

/-- The origin tags pushed by `buildTagNames` (src/index.js lines 481-493). -/
def origenTags (origen : String) : List String :=
  if origen = "web" then ["Origen: web"]
  else if origen = "email" then ["Origen: email"]
  else if origen = "telefono" ∨ origen = "teléfono" then ["Origen: teléfono"]
  else if origen = "red_social" ∨ origen = "redes" ∨ origen = "social" then
    ["Origen: redes sociales"]
  else if origen = "cita" then ["Origen: cita"]
  else []

/-- The channel tags pushed by `buildTagNames` (src/index.js lines 496-503). -/
def canalTags (canal : String) : List String :=
  if canal = "formulario" then ["Canal: formulario"]
  else if canal = "llamada" then ["Canal: llamada"]
  else if canal = "whatsapp" then ["Canal: WhatsApp"]
  else if canal = "instagram" then ["Canal: Instagram"]
  else if canal = "facebook" then ["Canal: Facebook"]
  else if canal = "cita" then ["Canal: cita"]
  else []

/-- `n.startsWith("IA:")`: the marker tested by `buildTagNames`. -/
def isIA (t : String) : Bool :=
  strStartsWith t "IA:"

/-- Helper for `dedupFirst`: drops any element already in `seen`. -/
def dedupFirstAux (seen : List String) : List String → List String
  | [] => []
  | x :: xs =>
    if x ∈ seen then dedupFirstAux seen xs
    else x :: dedupFirstAux (x :: seen) xs

/-- `Array.from(new Set(tagNames))`: removes duplicates keeping the first
occurrence of each element, as a JavaScript `Set` does. -/
def dedupFirst (l : List String) : List String :=
  dedupFirstAux [] l

/-- The tag list built by `buildTagNames` before deduplication
(src/index.js lines 443-515), parameterized by the four lowercased
selector strings: the intent switch pushes one tag, then urgency /
origin / channel tags, then the "IA: Lead válido" marker when no
"IA:"-tag exists yet and the intent is warm, then the
"IA: Revisar manualmente" fallback when there is still none. -/
def baseTags (intencion urg origen canal : String) : List String :=
  [intentTag intencion] ++ urgenciaTags urg
    ++ origenTags origen ++ canalTags canal

/-- The "IA: Lead válido" marker step (src/index.js lines 506-511). -/
def withValidTags (intencion : String) (tagNames : List String) :
    List String :=
  if ¬ tagNames.any isIA ∧
      intencion ∈ ["maquina", "pizzas", "ambos", "operador"] then
    tagNames ++ ["IA: Lead válido"]
  else tagNames

/-- The "IA: Revisar manualmente" fallback step (src/index.js
lines 513-515). -/
def withFallbackTags (tagNames : List String) : List String :=
  if ¬ tagNames.any isIA then tagNames ++ ["IA: Revisar manualmente"]
  else tagNames

def preTags (intencion urg origen canal : String) : List String :=
  withFallbackTags
    (withValidTags intencion (baseTags intencion urg origen canal))

/-- `buildTagNames` (src/index.js lines 442-519). -/
def buildTagNames (ai : AIRecord) (originalBody : LeadBody) : List String :=
  dedupFirst (preTags
    (toLowerCase ai.intencion)
    (toLowerCase ai.urgencia)
    (toLowerCase (jsOrS originalBody.origen (jsOrS originalBody.source "")))
    (toLowerCase (jsOrS originalBody.canal (jsOrS originalBody.channel ""))))

example :
    buildTagNames ⟨"maquina", "es", "España", "alta", "", "", ⟨none, none, none⟩⟩
      emptyBody =
    ["Máquina de Pizzas y comida", "Urgencia: alta", "IA: Lead válido"] := rfl

example :
    buildTagNames ⟨"otros", "es", "", "", "", "", ⟨none, none, none⟩⟩
      emptyBody =
    ["Otros", "IA: Revisar manualmente"] := rfl

/-- The greeting line of `buildSuggestedReply` (src/index.js lines 523-539):
`nombre` falls back to the literal "Hola", so an anonymous body greets
with "Hola Hola," exactly as the source does. -/
def baseNombre (originalBody : LeadBody) : String :=
  let nombre := jsOrS originalBody.nombre
    (jsOrS originalBody.name (jsOrS originalBody.contact_name "Hola"))
  if nombre ≠ "" then "Hola " ++ nombre ++ "," else "Hola,"

/-- The `ubicacion` local of `buildSuggestedReply` (src/index.js
lines 533-536): the detected location unless absent, empty, or the
"no especifica" sentinel. -/
def replyUbicacion (ai : AIRecord) : String :=
  match ai.datos_detectados.ubicacion with
  | some u => if u ≠ "" ∧ toLowerCase u ≠ "no especifica" then u else ""
  | none => ""

/-- The English body paragraph (src/index.js lines 547-562). -/
def enCuerpo (intencion : String) : String :=
  if intencion = "maquina" ∨ intencion = "operador" ∨ intencion = "ambos" then
    "We will send you information about our vending machines (SmartChef24h) and commercial conditions.\n"
  else if intencion = "pizzas" then
    "We will send you information about our pizzas catalog, formats and prices.\n"
  else if intencion = "soporte" then
    "We have received your technical support request and we\x27ll review it as soon as possible.\n"
  else
    "We will reply with the information you requested.\n"

/-- The English call-booking clause and its gate (src/index.js
lines 563-570): `citaUrl && (maquina || operador || ambos)` — note the
source checks no urgency here. -/
def enCitaPart (citaUrl intencion : String) : String :=
  if citaUrl ≠ "" ∧
      (intencion = "maquina" ∨ intencion = "operador" ∨ intencion = "ambos") then
    "\nIf you prefer, you can book a call here: " ++ citaUrl
  else ""

/-- The Spanish body paragraph (src/index.js lines 577-605). -/
def esCuerpo (intencion pais ubicacion : String) : String :=
  if intencion = "maquina" ∨ intencion = "operador" ∨ intencion = "ambos" then
    "Hemos recibido tu consulta sobre nuestras máquinas SmartChef24h y las condiciones para instalarlas"
      ++ (if ubicacion ≠ "" then " en " ++ ubicacion
          else if pais ≠ "" ∧ pais ≠ "Desconocido" then " en " ++ pais else "")
      ++ ". Te enviaremos una propuesta adaptada a tu caso (ubicación, previsión de ventas y modelo de colaboración).\n"
  else if intencion = "pizzas" then
    "Hemos recibido tu interés por nuestras pizzas. Te enviaremos información sobre catálogo, formatos, precios y condiciones de suministro"
      ++ (if pais ≠ "" ∧ pais ≠ "Desconocido" then " para " ++ pais else "")
      ++ ".\n"
  else if intencion = "soporte" then
    "Hemos recibido tu consulta de soporte técnico. Vamos a revisar el caso y te responderemos con las instrucciones y pasos a seguir lo antes posible.\n"
  else if intencion = "info" then
    "Hemos recibido tu consulta y te responderemos con la información que necesitas.\n"
  else
    "Hemos recibido tu mensaje y lo revisaremos para darte la mejor respuesta posible.\n"

/-- The Spanish call-booking clause and its gate `puedeOfrecerCita`
(src/index.js lines 607-619): `citaUrl && (maquina || operador || ambos
|| info) && urg !== "baja"`. -/
def esCitaPart (citaUrl intencion urg : String) : String :=
  if citaUrl ≠ "" ∧
      (intencion = "maquina" ∨ intencion = "operador" ∨ intencion = "ambos" ∨
        intencion = "info") ∧
      urg ≠ "baja" then
    "\nSi lo prefieres, podemos comentarlo en detalle en una llamada.\nPuedes agendar una cita directamente aquí: "
      ++ citaUrl ++ "\n"
  else ""

/-- `buildSuggestedReply` (src/index.js lines 522-624).  `citaUrl` is the
`ODOO_APPOINTMENT_URL` environment value (`""` when unset). -/
def buildSuggestedReply (citaUrl : String) (ai : AIRecord)
    (originalBody : LeadBody) : String :=
  let idioma := toLowerCase (if ai.idioma = "" then "es" else ai.idioma)
  let intencion := toLowerCase ai.intencion
  let urg := toLowerCase ai.urgencia
  let pais := ai.pais
  let ubicacion := replyUbicacion ai
  let intro := baseNombre originalBody
  let isSpanish := idioma = "es" ∨ idioma = "ca"
  if ¬ isSpanish then
    jsTrim (intro ++ " thank you for contacting us.\n\n"
      ++ enCuerpo intencion ++ enCitaPart citaUrl intencion)
  else
    jsTrim (intro ++ " gracias por contactar con Piznalia / La Pizzerina.\n\n"
      ++ esCuerpo intencion pais ubicacion ++ esCitaPart citaUrl intencion urg
      ++ "\nUn saludo,\nEquipo Piznalia / La Pizzerina")

example :
    buildSuggestedReply "https://cita.example"
      ⟨"maquina", "en", "Desconocido", "baja", "", "", ⟨none, none, none⟩⟩
      emptyBody =
    "Hola Hola, thank you for contacting us.\n\nWe will send you information about our vending machines (SmartChef24h) and commercial conditions.\n\nIf you prefer, you can book a call here: https://cita.example" := rfl

/-!
The Odoo JSON-RPC layer.  Each remote call is modelled by a
`FetchResult` oracle: the `fetch` promise either rejects (a network-level
transport failure, which in the source is an uncaught exception) or
resolves to a response with an `ok` flag, a status code, and a body that
may (`some`) or may not (`none`, making `resp.json()` throw) parse as
JSON.  `Except.error` models a JavaScript exception propagating out of
the async function.
-/

/-- The outcome of one `fetch` call, seen from the calling code. -/
inductive FetchResult where
  | reject
  | response (ok : Bool) (status : Nat) (jsonBody : Option JSVal)

/-- The Odoo environment configuration (src/index.js lines 12-16); an
unset variable is the empty (falsy) string. -/
structure OdooConfig where
  baseUrl : String
  db : String
  userEmail : String
  apiKey : String
  appointmentUrl : String

/-- `authenticateOdoo` (src/index.js lines 293-339); `cachedOdooUid` is
the module-level cache (initially `null`). -/
def authenticateOdoo (cfg : OdooConfig) (cachedOdooUid : JSVal)
    (oracle : FetchResult) : Except JsError JSVal :=
  if truthy cachedOdooUid then .ok cachedOdooUid
  else if cfg.baseUrl = "" ∨ cfg.db = "" ∨ cfg.userEmail = "" ∨
      cfg.apiKey = "" then
    .error .configMissing
  else
    match oracle with
    | .reject => .error .fetchReject
    | .response ok st jsonBody =>
      if ¬ ok then .error (.authHttp st)
      else
        match jsonBody with
        | none => .error .jsonParse
        | some data => do
          let uid ← getProp data "result"
          if ¬ truthy uid then .error .authFailed else .ok uid

/-- `getCountryIdByName` (src/index.js lines 342-388).  The second
component counts the `fetch` calls issued (0 or 1), so that the
short-circuit paths are observable. -/
def getCountryIdByName (oracle : FetchResult) (uid : JSVal)
    (countryName : String) : Except JsError JSVal × Nat :=
  if countryName = "" ∨ toLowerCase countryName = "desconocido" then
    (.ok .null, 0)
  else
    match oracle with
    | .reject => (.error .fetchReject, 1)
    | .response ok _st jsonBody =>
      if ¬ ok then (.ok .null, 1)
      else
        match jsonBody with
        | none => (.error .jsonParse, 1)
        | some data =>
          ((do
            let errv ← getProp data "error"
            if truthy errv then .ok JSVal.null
            else do
              let resv ← getProp data "result"
              let ids := jsOr resv (.arr [])
              .ok (if truthy (jsLength ids) then jsIndex0 ids
                   else JSVal.null)), 1)

/-- `getTagIdsByNames` (src/index.js lines 391-439), same call-counting
second component as `getCountryIdByName`. -/
def getTagIdsByNames (oracle : FetchResult) (uid : JSVal)
    (names : List String) : Except JsError JSVal × Nat :=
  let clean := (names.map jsTrim).filter (fun n => n ≠ "")
  if clean.isEmpty then (.ok (.arr []), 0)
  else
    match oracle with
    | .reject => (.error .fetchReject, 1)
    | .response ok _st jsonBody =>
      if ¬ ok then (.ok (.arr []), 1)
      else
        match jsonBody with
        | none => (.error .jsonParse, 1)
        | some data =>
          ((do
            let errv ← getProp data "error"
            if truthy errv then .ok (JSVal.arr [])
            else do
              let resv ← getProp data "result"
              let found := jsOr resv (.arr [])
              match found with
              | .arr ts => do
                let ids ← ts.mapM (fun t => getProp t "id")
                .ok (JSVal.arr ids)
              | _ => .error .typeError), 1)

/-- Property access on a value already known to be truthy (so never a
TypeError): used for `data.error.data` and friends. -/
def jsGetField (v : JSVal) (k : String) : JSVal :=
  match v with
  | .obj fs => (fs.lookup k).getD .undefined
  | _ => .undefined

mutual

/-- `JSON.stringify` (escaping inside strings and the omission of
`undefined`-valued object entries are not modelled; the only call sites
are log/error-message text). -/
def jsStringify : JSVal → String
  | .null => "null"
  | .undefined => "null"
  | .bool b => if b then "true" else "false"
  | .num n => toString n
  | .str s => "\"" ++ s ++ "\""
  | .arr xs => "[" ++ jsStringifyList xs ++ "]"
  | .obj fs => "\x7b" ++ jsStringifyObj fs ++ "\x7d"

/-- Comma-separated `JSON.stringify` of array elements. -/
def jsStringifyList : List JSVal → String
  | [] => ""
  | [x] => jsStringify x
  | x :: xs => jsStringify x ++ "," ++ jsStringifyList xs

/-- Comma-separated `JSON.stringify` of object entries. -/
def jsStringifyObj : List (String × JSVal) → String
  | [] => ""
  | [(k, v)] => "\"" ++ k ++ "\":" ++ jsStringify v
  | (k, v) :: fs => "\"" ++ k ++ "\":" ++ jsStringify v ++ "," ++ jsStringifyObj fs

end

mutual

/-- JavaScript string conversion, as in a template literal. -/
def jsToString : JSVal → String
  | .null => "null"
  | .undefined => "undefined"
  | .bool b => if b then "true" else "false"
  | .num n => toString n
  | .str s => s
  | .arr xs => jsToStringList xs
  | .obj _ => "[object Object]"

/-- `Array.prototype.join(",")`, where null/undefined elements render
as the empty string. -/
def jsToStringList : List JSVal → String
  | [] => ""
  | x :: xs =>
    (match x with
     | .null => ""
     | .undefined => ""
     | v => jsToString v)
      ++ (if xs.isEmpty then "" else "," ++ jsToStringList xs)

end

/-- The error-message extraction of the `data.error` branch of
`createOdooLead` (src/index.js lines 739-746):
`(data.error.data && data.error.data.message) || data.error.message ||
JSON.stringify(data.error)`, interpolated into the thrown message. -/
def extractErrMsg (errv : JSVal) : String :=
  let d := jsGetField errv "data"
  let e1 := if truthy d then jsGetField d "message" else d
  let e2 := jsOr e1 (jsGetField errv "message")
  let msg := if truthy e2 then e2 else JSVal.str (jsStringify errv)
  "Odoo error creando lead: " ++ jsToString msg

/-- JavaScript `a || b` on plain strings. -/
def sOr (a b : String) : String :=
  if a = "" then b else a

/-- The `priority` computation of `createOdooLead`
(src/index.js lines 658-663): "1" (low) by default. -/
def leadPriority (urgencia : String) : String :=
  let urg := toLowerCase urgencia
  if urg = "alta" then "3"
  else if urg = "media" then "2"
  else if urg = "baja" then "1"
  else "1"

/-- The `city` computation of `createOdooLead`
(src/index.js lines 649-656). -/
def leadCity (ai : AIRecord) : String :=
  match ai.datos_detectados.ubicacion with
  | some u0 =>
    if u0 ≠ "" then
      let u := jsTrim u0
      if u ≠ "" ∧ toLowerCase u ≠ "no especifica" then u else ""
    else ""
  | none => ""

/-- `JSON.stringify(ai.datos_detectados || {})` for the typed
`datos_detectados` record: present sub-fields in source order. -/
def stringifyDatos (d : DetectedData) : String :=
  let fields :=
    (match d.cantidad with
     | some c => ["\"cantidad\":\"" ++ c ++ "\""]
     | none => []) ++
    (match d.ubicacion with
     | some u => ["\"ubicacion\":\"" ++ u ++ "\""]
     | none => []) ++
    (match d.plazo with
     | some p => ["\"plazo\":\"" ++ p ++ "\""]
     | none => [])
  "\x7b" ++ String.intercalate "," fields ++ "\x7d"

/-- The composed `description` field of the lead record
(src/index.js lines 680-697), a trimmed template literal. -/
def leadDescription (ai : AIRecord) (textoOriginal origin channel : String) :
    String :=
  jsTrim ("\nTexto original:\n" ++ textoOriginal
    ++ "\n\nResumen IA:\n" ++ ai.resumen
    ++ "\n\nPregunta:\n" ++ ai.pregunta
    ++ "\n\nIntención: " ++ ai.intencion
    ++ "\nPaís: " ++ ai.pais
    ++ "\nUrgencia: " ++ ai.urgencia
    ++ "\nDatos detectados: " ++ stringifyDatos ai.datos_detectados
    ++ "\n\nOrigen: " ++ origin
    ++ "\nCanal: " ++ channel ++ "\n    ")

/-- The record submitted to the `crm.lead` `create` call
(src/index.js lines 675-709).  `none` models a field left `undefined`
(city, country) or never set (tag_ids). -/
structure LeadVals where
  name : String
  contact_name : String
  email_from : String
  phone : String
  description : String
  priority : String
  city : Option String
  country_id : Option JSVal
  x_resumen_ia : String
  x_respuesta_ia : String
  tag_ids : Option JSVal

/-- `createOdooLead` (src/index.js lines 627-757).  The four oracles
stand for the authenticate, country-search, tag-search and create RPC
round trips; the create oracle sees the submitted record. -/
def createOdooLead (cfg : OdooConfig) (cachedOdooUid : JSVal)
    (authO : FetchResult) (countryO : FetchResult) (tagsO : FetchResult)
    (createO : LeadVals → FetchResult)
    (ai : AIRecord) (originalBody : LeadBody) : Except JsError JSVal := do
  let uid ← authenticateOdoo cfg cachedOdooUid authO
  let partnerName := jsOrS originalBody.nombre (jsOrS originalBody.name
    (jsOrS originalBody.contact_name "Lead sin nombre"))
  let emailFrom := jsOrS originalBody.email (jsOrS originalBody.email_from "")
  let phone := jsOrS originalBody.phone (jsOrS originalBody.telefono "")
  let origin := jsOrS originalBody.origen (jsOrS originalBody.source "")
  let channel := jsOrS originalBody.canal (jsOrS originalBody.channel "")
  let textoOriginal := jsOrS originalBody.text (jsOrS originalBody.mensaje
    (jsOrS originalBody.message (jsOrS originalBody.content "")))
  let city := leadCity ai
  let priority := leadPriority ai.urgencia
  let countryId ← (getCountryIdByName countryO uid ai.pais).1
  let tagNames := buildTagNames ai originalBody
  let tagIds ← (getTagIdsByNames tagsO uid tagNames).1
  let suggestedReply := buildSuggestedReply cfg.appointmentUrl ai originalBody
  let vals : LeadVals :=
    ⟨sOr ai.resumen (sOr ai.pregunta "Nuevo lead desde IA"),
     partnerName, emailFrom, phone,
     leadDescription ai textoOriginal origin channel,
     priority,
     (if city ≠ "" then some city else none),
     (if truthy countryId then some countryId else none),
     ai.resumen, suggestedReply,
     (if truthy (jsLength tagIds) then
        some (.arr [.arr [.num 6, .num 0, tagIds]])
      else none)⟩
  match createO vals with
  | .reject => .error .fetchReject
  | .response ok st jsonBody =>
    if ¬ ok then .error (.createHttp st)
    else
      match jsonBody with
      | none => .error .jsonParse
      | some data => do
        let errv ← getProp data "error"
        if truthy errv then .error (.odooAppError (extractErrMsg errv))
        else do
          let resv ← getProp data "result"
          match resv with
          | .num n => .ok (.num n)
          | _ => .error .nonNumericId

/-!
Structural lemmas about `normalizeAIResult` on JS objects.
-/

/-- The pure value of `fs[k1] || fs[k2] || d` on an object. -/
def getFieldPure (fs : List (String × JSVal)) (k1 k2 : String) (d : JSVal) :
    JSVal :=
  jsOr ((fs.lookup k1).getD .undefined) (jsOr ((fs.lookup k2).getD .undefined) d)

/-- The pure value of `fs[k] || d` on an object. -/
def getField1Pure (fs : List (String × JSVal)) (k : String) (d : JSVal) :
    JSVal :=
  jsOr ((fs.lookup k).getD .undefined) d

theorem getField_obj (fs : List (String × JSVal)) (k1 k2 : String) (d : JSVal) :
    getField (.obj fs) k1 k2 d = .ok (getFieldPure fs k1 k2 d) := by
  by_cases h1 : truthy ((fs.lookup k1).getD .undefined) <;>
    simp [getField, getProp, getFieldPure, jsOr, h1, bind, Except.bind, pure,
      Except.pure]

theorem getField1_obj (fs : List (String × JSVal)) (k : String) (d : JSVal) :
    getField1 (.obj fs) k d = .ok (getField1Pure fs k d) := by
  simp [getField1, getProp, getField1Pure, jsOr, bind, Except.bind, pure,
    Except.pure]

theorem normalizeAIResult_obj (fs : List (String × JSVal)) :
    normalizeAIResult (.obj fs) =
      .ok ⟨getFieldPure fs "intencion" "intent" (.str "otros"),
           getFieldPure fs "idioma" "language" (.str "es"),
           getFieldPure fs "pais" "country" (.str "Desconocido"),
           getFieldPure fs "urgencia" "urgency" (.str "media"),
           getField1Pure fs "resumen" (.str ""),
           getField1Pure fs "pregunta" (.str ""),
           getFieldPure fs "datos_detectados" "data" (.obj []),
           .obj fs⟩ := by
  simp [normalizeAIResult, getField_obj, getField1_obj, bind, Except.bind,
    pure, Except.pure]

/-- C4: for every RawModelOutput object in which every optional field is
absent under both its primary and its alternate key, `normalizeAIResult`
returns exactly the documented defaults — intent "otros", language "es",
country "Desconocido" (the Unknown sentinel), urgency "media", empty
summary and question, empty detected-data object — with the raw input
retained verbatim. -/
theorem normalize_all_absent_defaults (fs : List (String × JSVal))
    (h1 : fs.lookup "intencion" = none) (h2 : fs.lookup "intent" = none)
    (h3 : fs.lookup "idioma" = none) (h4 : fs.lookup "language" = none)
    (h5 : fs.lookup "pais" = none) (h6 : fs.lookup "country" = none)
    (h7 : fs.lookup "urgencia" = none) (h8 : fs.lookup "urgency" = none)
    (h9 : fs.lookup "resumen" = none) (h10 : fs.lookup "pregunta" = none)
    (h11 : fs.lookup "datos_detectados" = none)
    (h12 : fs.lookup "data" = none) :
    normalizeAIResult (.obj fs) =
      .ok ⟨.str "otros", .str "es", .str "Desconocido", .str "media",
           .str "", .str "", .obj [], .obj fs⟩ := by
  rw [normalizeAIResult_obj]
  simp [getFieldPure, getField1Pure, jsOr, truthy,
    h1, h2, h3, h4, h5, h6, h7, h8, h9, h10, h11, h12]

/-- C4 witness: the empty object normalizes to the defaults. -/
theorem normalize_all_absent_defaults_witness :
    normalizeAIResult (.obj []) =
      .ok ⟨.str "otros", .str "es", .str "Desconocido", .str "media",
           .str "", .str "", .obj [], .obj []⟩ :=
  normalize_all_absent_defaults [] rfl rfl rfl rfl rfl rfl rfl rfl rfl rfl
    rfl rfl

/-- C5 counterexample: the intent value "consulta" lies outside the
enumeration (maquina, pizzas, ambos, operador, soporte, info, otros),
yet `normalizeAIResult` carries it through verbatim instead of replacing
it with the default "otros". -/
theorem normalize_unrecognized_intent_cex :
    normalizeAIResult (.obj [("intencion", .str "consulta")]) =
      .ok ⟨.str "consulta", .str "es", .str "Desconocido", .str "media",
           .str "", .str "", .obj [],
           .obj [("intencion", .str "consulta")]⟩ ∧
    ("consulta" : String) ∉
      (["maquina", "pizzas", "ambos", "operador", "soporte", "info",
        "otros"] : List String) ∧
    ("consulta" : String) ≠ "otros" := by
  refine ⟨rfl, by decide, by decide⟩

/-- C5 amended: `normalizeAIResult` does not validate the intent against
the enumeration — any truthy intent value under the primary key, whether
recognized or not, passes through verbatim into the normalized record;
the default "otros" is used only when the field is absent or falsy under
both keys.  (Downstream, `buildTagNames` maps unrecognized intents to the
manual-review tag.) -/
theorem normalize_intent_passthrough (fs : List (String × JSVal)) (v : JSVal)
    (hv : fs.lookup "intencion" = some v) (ht : truthy v = true) :
    (normalizeAIResult (.obj fs)).map LeadAnalysisJS.intencion = .ok v := by
  rw [normalizeAIResult_obj]
  simp [getFieldPure, jsOr, hv, ht, Except.map]

/-- C5 amended witness at the unrecognized intent "consulta". -/
theorem normalize_intent_passthrough_witness :
    (normalizeAIResult (.obj [("intencion", .str "consulta")])).map
      LeadAnalysisJS.intencion = .ok (.str "consulta") :=
  normalize_intent_passthrough [("intencion", .str "consulta")]
    (.str "consulta") rfl rfl

/-- C6 counterexample: `normalizeAIResult` is not total — on the JSON
value `null` (and on `undefined`) the property access `parsed.intencion`
throws a TypeError, so the function has an error path. -/
theorem normalize_null_throws_cex :
    normalizeAIResult .null = .error .typeError ∧
    normalizeAIResult .undefined = .error .typeError :=
  ⟨rfl, rfl⟩

/-- C6 amended: `normalizeAIResult` never throws on any input other than
null and undefined — objects, including ones with fields of unexpected
types, and all other primitives are absorbed into a LeadAnalysis. -/
theorem normalize_total_on_nonnull (v : JSVal)
    (hn : v ≠ .null) (hu : v ≠ .undefined) :
    ∃ r, normalizeAIResult v = .ok r := by
  cases v with
  | null => exact absurd rfl hn
  | undefined => exact absurd rfl hu
  | bool b => exact ⟨_, rfl⟩
  | num n => exact ⟨_, rfl⟩
  | str s => exact ⟨_, rfl⟩
  | arr xs => exact ⟨_, rfl⟩
  | obj fs => exact ⟨_, normalizeAIResult_obj fs⟩

/-- C6 amended witness: a non-object primitive input normalizes without
an error. -/
theorem normalize_total_on_nonnull_witness :
    ∃ r, normalizeAIResult (.num 5) = .ok r :=
  normalize_total_on_nonnull (.num 5) (fun h => JSVal.noConfusion h)
    (fun h => JSVal.noConfusion h)

/-- C7: whenever both the primary key and the alternate English key of a
field are present with distinct truthy (non-empty) values, the normalized
record carries the primary key's value — for all five aliased fields:
intencion/intent, idioma/language, pais/country, urgencia/urgency,
datos_detectados/data. -/
theorem normalize_primary_key_wins (fs : List (String × JSVal)) :
    (∀ a b, fs.lookup "intencion" = some a → truthy a = true →
      fs.lookup "intent" = some b → truthy b = true → a ≠ b →
      (normalizeAIResult (.obj fs)).map LeadAnalysisJS.intencion = .ok a) ∧
    (∀ a b, fs.lookup "idioma" = some a → truthy a = true →
      fs.lookup "language" = some b → truthy b = true → a ≠ b →
      (normalizeAIResult (.obj fs)).map LeadAnalysisJS.idioma = .ok a) ∧
    (∀ a b, fs.lookup "pais" = some a → truthy a = true →
      fs.lookup "country" = some b → truthy b = true → a ≠ b →
      (normalizeAIResult (.obj fs)).map LeadAnalysisJS.pais = .ok a) ∧
    (∀ a b, fs.lookup "urgencia" = some a → truthy a = true →
      fs.lookup "urgency" = some b → truthy b = true → a ≠ b →
      (normalizeAIResult (.obj fs)).map LeadAnalysisJS.urgencia = .ok a) ∧
    (∀ a b, fs.lookup "datos_detectados" = some a → truthy a = true →
      fs.lookup "data" = some b → truthy b = true → a ≠ b →
      (normalizeAIResult (.obj fs)).map LeadAnalysisJS.datos_detectados =
        .ok a) := by
  refine ⟨?_, ?_, ?_, ?_, ?_⟩ <;>
    (intro a b ha hta hb htb hne
     rw [normalizeAIResult_obj]
     simp [getFieldPure, jsOr, ha, hta, Except.map])

/-- C7 witness: one object carrying all five key pairs with distinct
truthy values; each normalized field is the primary key's value. -/
theorem normalize_primary_key_wins_witness :
    ((normalizeAIResult (.obj
        [("intencion", .str "maquina"), ("intent", .str "machine"),
         ("idioma", .str "ca"), ("language", .str "en"),
         ("pais", .str "España"), ("country", .str "Spain"),
         ("urgencia", .str "alta"), ("urgency", .str "high"),
         ("datos_detectados", .obj [("ubicacion", .str "Girona")]),
         ("data", .obj [])])).map LeadAnalysisJS.intencion =
      .ok (.str "maquina")) ∧
    ((normalizeAIResult (.obj
        [("intencion", .str "maquina"), ("intent", .str "machine"),
         ("idioma", .str "ca"), ("language", .str "en"),
         ("pais", .str "España"), ("country", .str "Spain"),
         ("urgencia", .str "alta"), ("urgency", .str "high"),
         ("datos_detectados", .obj [("ubicacion", .str "Girona")]),
         ("data", .obj [])])).map LeadAnalysisJS.datos_detectados =
      .ok (.obj [("ubicacion", .str "Girona")])) := by
  constructor
  · exact (normalize_primary_key_wins _).1 (.str "maquina") (.str "machine")
      rfl rfl rfl rfl
      (fun h => by injection h with h; exact absurd h (by decide))
  · exact (normalize_primary_key_wins _).2.2.2.2
      (.obj [("ubicacion", .str "Girona")]) (.obj [])
      rfl rfl rfl rfl
      (fun h => by injection h with h; exact List.noConfusion h)

/-- C10: a present-but-falsy optional field (empty string, null, false
or 0) is treated exactly as if it were absent: the JS `||` fallback skips
it, so the field is computed from the alternate key and the schema
default alone — for every field of the normalized record. -/
theorem normalize_falsy_as_absent (fs : List (String × JSVal)) :
    (∀ v, fs.lookup "intencion" = some v → truthy v = false →
      (normalizeAIResult (.obj fs)).map LeadAnalysisJS.intencion =
        .ok (jsOr ((fs.lookup "intent").getD .undefined) (.str "otros"))) ∧
    (∀ v, fs.lookup "idioma" = some v → truthy v = false →
      (normalizeAIResult (.obj fs)).map LeadAnalysisJS.idioma =
        .ok (jsOr ((fs.lookup "language").getD .undefined) (.str "es"))) ∧
    (∀ v, fs.lookup "pais" = some v → truthy v = false →
      (normalizeAIResult (.obj fs)).map LeadAnalysisJS.pais =
        .ok (jsOr ((fs.lookup "country").getD .undefined)
              (.str "Desconocido"))) ∧
    (∀ v, fs.lookup "urgencia" = some v → truthy v = false →
      (normalizeAIResult (.obj fs)).map LeadAnalysisJS.urgencia =
        .ok (jsOr ((fs.lookup "urgency").getD .undefined) (.str "media"))) ∧
    (∀ v, fs.lookup "resumen" = some v → truthy v = false →
      (normalizeAIResult (.obj fs)).map LeadAnalysisJS.resumen =
        .ok (.str "")) ∧
    (∀ v, fs.lookup "pregunta" = some v → truthy v = false →
      (normalizeAIResult (.obj fs)).map LeadAnalysisJS.pregunta =
        .ok (.str "")) ∧
    (∀ v, fs.lookup "datos_detectados" = some v → truthy v = false →
      (normalizeAIResult (.obj fs)).map LeadAnalysisJS.datos_detectados =
        .ok (jsOr ((fs.lookup "data").getD .undefined) (.obj []))) := by
  refine ⟨?_, ?_, ?_, ?_, ?_, ?_, ?_⟩ <;>
    (intro v hv htv
     rw [normalizeAIResult_obj]
     simp [getFieldPure, getField1Pure, jsOr, hv, htv, Except.map])

/-- C10 witness: explicitly falsy fields (empty-string language, null
detected_data) normalize to the schema defaults "es" and the empty
object. -/
theorem normalize_falsy_as_absent_witness :
    ((normalizeAIResult (.obj
        [("idioma", .str ""), ("datos_detectados", .null)])).map
      LeadAnalysisJS.idioma = .ok (.str "es")) ∧
    ((normalizeAIResult (.obj
        [("idioma", .str ""), ("datos_detectados", .null)])).map
      LeadAnalysisJS.datos_detectados = .ok (.obj [])) :=
  ⟨(normalize_falsy_as_absent _).2.1 (.str "") rfl rfl,
   (normalize_falsy_as_absent _).2.2.2.2.2.2 .null rfl rfl⟩


/-!
Lemmas for `buildTagNames`: membership in the deduplicated list, and the
count of "IA:"-tags in the built list.
-/

theorem mem_dedupFirstAux (a : String) (l : List String) :
    ∀ seen, a ∈ dedupFirstAux seen l ↔ (a ∈ l ∧ a ∉ seen) := by
  induction l with
  | nil => intro seen; simp [dedupFirstAux]
  | cons x xs ih =>
    intro seen
    by_cases hx : x ∈ seen
    · simp only [dedupFirstAux, if_pos hx, ih seen, List.mem_cons]
      constructor
      · rintro ⟨h1, h2⟩
        exact ⟨Or.inr h1, h2⟩
      · rintro ⟨rfl | h1, h2⟩
        · exact absurd hx h2
        · exact ⟨h1, h2⟩
    · simp only [dedupFirstAux, if_neg hx, List.mem_cons, ih (x :: seen)]
      constructor
      · rintro (rfl | ⟨h1, h2⟩)
        · exact ⟨Or.inl rfl, hx⟩
        · exact ⟨Or.inr h1, fun hs => h2 (Or.inr hs)⟩
      · rintro ⟨h1 | h1, h2⟩
        · exact Or.inl h1
        · by_cases hax : a = x
          · exact Or.inl hax
          · exact Or.inr ⟨h1, fun hs => hs.elim hax h2⟩

theorem mem_dedupFirst (a : String) (l : List String) :
    a ∈ dedupFirst l ↔ a ∈ l := by
  simp [dedupFirst, mem_dedupFirstAux]

theorem dedupFirst_ne_nil (l : List String) (h : l ≠ []) :
    dedupFirst l ≠ [] := by
  cases l with
  | nil => exact absurd rfl h
  | cons x xs => simp [dedupFirst, dedupFirstAux]

theorem urgenciaTags_no_IA (u : String) :
    ∀ t ∈ urgenciaTags u, isIA t = false := by
  intro t ht
  unfold urgenciaTags at ht
  split_ifs at ht <;> simp at ht <;> subst ht <;> decide

theorem origenTags_no_IA (o : String) :
    ∀ t ∈ origenTags o, isIA t = false := by
  intro t ht
  unfold origenTags at ht
  split_ifs at ht <;> simp at ht <;> subst ht <;> decide

theorem canalTags_no_IA (c : String) :
    ∀ t ∈ canalTags c, isIA t = false := by
  intro t ht
  unfold canalTags at ht
  split_ifs at ht <;> simp at ht <;> subst ht <;> decide

theorem baseTags_countP (i u o c : String) :
    (baseTags i u o c).countP isIA =
      (if isIA (intentTag i) = true then 1 else 0) := by
  have hU : (urgenciaTags u).countP isIA = 0 :=
    List.countP_eq_zero.mpr (by simpa using urgenciaTags_no_IA u)
  have hO : (origenTags o).countP isIA = 0 :=
    List.countP_eq_zero.mpr (by simpa using origenTags_no_IA o)
  have hC : (canalTags c).countP isIA = 0 :=
    List.countP_eq_zero.mpr (by simpa using canalTags_no_IA c)
  unfold baseTags
  rw [List.countP_append, List.countP_append, List.countP_append,
    hU, hO, hC]
  simp [List.countP_cons]

theorem baseTags_any (i u o c : String) :
    (baseTags i u o c).any isIA = isIA (intentTag i) := by
  cases hI : isIA (intentTag i) with
  | true =>
    exact List.any_eq_true.mpr ⟨intentTag i, by simp [baseTags], hI⟩
  | false =>
    apply List.any_eq_false.mpr
    intro t ht
    unfold baseTags at ht
    rcases List.mem_append.mp ht with ht | ht
    · rcases List.mem_append.mp ht with ht | ht
      · rcases List.mem_append.mp ht with ht | ht
        · rw [List.mem_singleton] at ht; subst ht; simp [hI]
        · simp [urgenciaTags_no_IA u t ht]
      · simp [origenTags_no_IA o t ht]
    · simp [canalTags_no_IA c t ht]

theorem preTags_countP_IA (i u o c : String) :
    (preTags i u o c).countP isIA = 1 := by
  unfold preTags
  by_cases hI : isIA (intentTag i) = true
  · have hc1 : ¬ (¬ (baseTags i u o c).any isIA = true ∧
        i ∈ ["maquina", "pizzas", "ambos", "operador"]) := by
      rw [baseTags_any, hI]; simp
    rw [withValidTags, if_neg hc1]
    have hc2 : ¬ ¬ (baseTags i u o c).any isIA = true := by
      rw [baseTags_any, hI]; simp
    rw [withFallbackTags, if_neg hc2]
    rw [baseTags_countP, if_pos hI]
  · rw [Bool.not_eq_true] at hI
    by_cases hm : i ∈ ["maquina", "pizzas", "ambos", "operador"]
    · have hc1 : ¬ (baseTags i u o c).any isIA = true ∧
          i ∈ ["maquina", "pizzas", "ambos", "operador"] :=
        ⟨by rw [baseTags_any, hI]; simp, hm⟩
      rw [withValidTags, if_pos hc1]
      have hval : ((baseTags i u o c) ++ ["IA: Lead válido"]).any isIA
          = true := by
        rw [List.any_append]
        have : (["IA: Lead válido"] : List String).any isIA = true := by
          decide
        rw [this, Bool.or_true]
      rw [withFallbackTags, if_neg (by rw [hval]; simp)]
      rw [List.countP_append, baseTags_countP, hI]
      decide
    · have hc1 : ¬ (¬ (baseTags i u o c).any isIA = true ∧
          i ∈ ["maquina", "pizzas", "ambos", "operador"]) :=
        fun h => hm h.2
      rw [withValidTags, if_neg hc1]
      have hc2 : ¬ (baseTags i u o c).any isIA = true := by
        rw [baseTags_any, hI]; simp
      rw [withFallbackTags, if_pos hc2]
      rw [List.countP_append, baseTags_countP, hI]
      decide

theorem countP_one_exists_unique (l : List String) (p : String → Bool)
    (h : l.countP p = 1) : ∃! t, t ∈ l ∧ p t = true := by
  rw [List.countP_eq_length_filter] at h
  rcases List.length_eq_one.mp h with ⟨c, hc⟩
  have hcmem : c ∈ List.filter p l := by simp [hc]
  refine ⟨c, ⟨(List.mem_filter.mp hcmem).1, (List.mem_filter.mp hcmem).2⟩, ?_⟩
  intro b hb
  have hbmem : b ∈ List.filter p l := List.mem_filter.mpr ⟨hb.1, hb.2⟩
  rw [hc] at hbmem
  simpa using hbmem

theorem preTags_ne_nil (i u o c : String) : preTags i u o c ≠ [] := by
  unfold preTags withFallbackTags withValidTags baseTags
  split <;> split <;> simp

/-- C1: for every normalized analysis and every request body,
`buildTagNames` returns a non-empty tag list that contains exactly one
tag whose name begins with "IA:" — the intent tag itself for
soporte/info/unrecognized intents, the generic "IA: Lead válido" marker
for the four warm intents, or the "IA: Revisar manualmente" fallback
for "otros". -/
theorem buildTagNames_exactly_one_IA (ai : AIRecord) (body : LeadBody) :
    buildTagNames ai body ≠ [] ∧
    ∃! t, t ∈ buildTagNames ai body ∧ isIA t = true := by
  unfold buildTagNames
  constructor
  · exact dedupFirst_ne_nil _ (preTags_ne_nil _ _ _ _)
  · obtain ⟨t, ⟨htl, htp⟩, hun⟩ :=
      countP_one_exists_unique _ _ (preTags_countP_IA
        (toLowerCase ai.intencion) (toLowerCase ai.urgencia)
        (toLowerCase (jsOrS body.origen (jsOrS body.source "")))
        (toLowerCase (jsOrS body.canal (jsOrS body.channel ""))))
    exact ⟨t, ⟨(mem_dedupFirst t _).mpr htl, htp⟩,
      fun b hb => hun b ⟨(mem_dedupFirst b _).mp hb.1, hb.2⟩⟩

/-!
The call-booking gates of `buildSuggestedReply`, rewritten in the
configured-and-urgency-and-intent-set form.
-/

theorem esCitaPart_gate (citaUrl i u : String) :
    esCitaPart citaUrl i u =
      if citaUrl ≠ "" ∧ u ≠ "baja" ∧
          i ∈ (["maquina", "operador", "ambos", "info"] : List String) then
        "\nSi lo prefieres, podemos comentarlo en detalle en una llamada.\nPuedes agendar una cita directamente aquí: "
          ++ citaUrl ++ "\n"
      else "" := by
  unfold esCitaPart
  refine if_congr ?_ rfl rfl
  constructor
  · rintro ⟨h1, h2, h3⟩
    exact ⟨h1, h3, by simpa using h2⟩
  · rintro ⟨h1, h2, h3⟩
    exact ⟨h1, by simpa using h3, h2⟩

theorem enCitaPart_gate (citaUrl i : String) :
    enCitaPart citaUrl i =
      if citaUrl ≠ "" ∧
          i ∈ (["maquina", "operador", "ambos"] : List String) then
        "\nIf you prefer, you can book a call here: " ++ citaUrl
      else "" := by
  unfold enCitaPart
  refine if_congr ?_ rfl rfl
  constructor
  · rintro ⟨h1, h2⟩
    exact ⟨h1, by simpa using h2⟩
  · rintro ⟨h1, h2⟩
    exact ⟨h1, by simpa using h2⟩

/-- C2 amended: `buildSuggestedReply` appends the call-booking clause
under a gate that differs per language branch.  In the Spanish/Catalan
branch the gate is exactly "booking URL configured AND urgency not low
AND intent in maquina/operador/ambos/info"; in the other-language
branch the gate is "booking URL configured AND intent in
maquina/operador/ambos" with no urgency condition at all, so a low
urgency does not suppress the clause there. -/
theorem buildSuggestedReply_cita_gate (citaUrl : String) (ai : AIRecord)
    (body : LeadBody) :
    buildSuggestedReply citaUrl ai body =
      (if toLowerCase (if ai.idioma = "" then "es" else ai.idioma) = "es" ∨
          toLowerCase (if ai.idioma = "" then "es" else ai.idioma) = "ca" then
        jsTrim (baseNombre body
          ++ " gracias por contactar con Piznalia / La Pizzerina.\n\n"
          ++ esCuerpo (toLowerCase ai.intencion) ai.pais (replyUbicacion ai)
          ++ (if citaUrl ≠ "" ∧ toLowerCase ai.urgencia ≠ "baja" ∧
                toLowerCase ai.intencion ∈
                  (["maquina", "operador", "ambos", "info"] : List String) then
               "\nSi lo prefieres, podemos comentarlo en detalle en una llamada.\nPuedes agendar una cita directamente aquí: "
                 ++ citaUrl ++ "\n"
             else "")
          ++ "\nUn saludo,\nEquipo Piznalia / La Pizzerina")
      else
        jsTrim (baseNombre body ++ " thank you for contacting us.\n\n"
          ++ enCuerpo (toLowerCase ai.intencion)
          ++ (if citaUrl ≠ "" ∧ toLowerCase ai.intencion ∈
                (["maquina", "operador", "ambos"] : List String) then
               "\nIf you prefer, you can book a call here: " ++ citaUrl
             else ""))) := by
  rw [← esCitaPart_gate, ← enCitaPart_gate]
  simp only [buildSuggestedReply]
  by_cases hsp : toLowerCase (if ai.idioma = "" then "es" else ai.idioma) = "es"
      ∨ toLowerCase (if ai.idioma = "" then "es" else ai.idioma) = "ca"
  · rw [if_neg (not_not_intro hsp), if_pos hsp]
  · rw [if_pos hsp, if_neg hsp]

/-- C2 counterexample: with a booking URL configured, intent "maquina",
language "en" and urgency "baja" (low), the reply still ends with the
call-booking clause — the urgency gate exists only in the
Spanish/Catalan branch, so "when urgency is low no booking clause is
ever appended, in either language branch" is false on the code. -/
theorem buildSuggestedReply_baja_booking_cex :
    buildSuggestedReply "https://cita.example"
      ⟨"maquina", "en", "Desconocido", "baja", "", "", ⟨none, none, none⟩⟩
      emptyBody =
    "Hola Hola, thank you for contacting us.\n\nWe will send you information about our vending machines (SmartChef24h) and commercial conditions.\n"
      ++ "\nIf you prefer, you can book a call here: https://cita.example" :=
  rfl

/-!
The swallowed and the propagated failure modes of the lookup helpers.
-/

theorem getCountryIdByName_notok (st : Nat) (b : Option JSVal)
    (uid : JSVal) (name : String) :
    (getCountryIdByName (.response false st b) uid name).1 = .ok .null := by
  unfold getCountryIdByName
  split <;> rfl

theorem getCountryIdByName_apperr (st : Nat) (fs : List (String × JSVal))
    (e : JSVal) (uid : JSVal) (name : String)
    (hlk : fs.lookup "error" = some e) (htr : truthy e = true) :
    (getCountryIdByName (.response true st (some (.obj fs))) uid name).1 =
      .ok .null := by
  unfold getCountryIdByName
  split
  · rfl
  · simp [getProp, hlk, htr, bind, Except.bind]

theorem getTagIdsByNames_notok (st : Nat) (b : Option JSVal)
    (uid : JSVal) (names : List String) :
    (getTagIdsByNames (.response false st b) uid names).1 = .ok (.arr []) := by
  simp only [getTagIdsByNames]
  by_cases h : ((names.map jsTrim).filter (fun n => n ≠ "")).isEmpty
  · rw [if_pos h]
  · rw [if_neg h]
    rfl

theorem getTagIdsByNames_apperr (st : Nat) (fs : List (String × JSVal))
    (e : JSVal) (uid : JSVal) (names : List String)
    (hlk : fs.lookup "error" = some e) (htr : truthy e = true) :
    (getTagIdsByNames (.response true st (some (.obj fs))) uid names).1 =
      .ok (.arr []) := by
  simp only [getTagIdsByNames]
  by_cases h : ((names.map jsTrim).filter (fun n => n ≠ "")).isEmpty
  · rw [if_pos h]
  · rw [if_neg h]
    simp [getProp, hlk, htr, bind, Except.bind]

/-- C3 counterexample: a network-level transport failure (a rejected
fetch promise) propagates out of both lookup helpers as an exception —
`Except.error` models the uncaught throw — instead of being swallowed
into the no-match result, so "never raise an exception for every remote
failure" is false on the code: there is no try/catch around `fetch` or
`resp.json()` in either helper. -/
theorem lookups_raise_on_transport_cex :
    (getCountryIdByName .reject (.num 2) "España").1 =
      .error .fetchReject ∧
    (getTagIdsByNames .reject (.num 2) ["Ambos"]).1 =
      .error .fetchReject :=
  ⟨rfl, rfl⟩

/-- C3 amended: the lookup helpers swallow exactly the two remote
failure modes the source checks for — a non-success HTTP response
(`!resp.ok`) and an Odoo-reported application error (`data.error`) —
and degrade to the no-match result (null country / empty tag list), for
every input; transport-level rejections and unparseable response bodies
are not caught and propagate (see the counterexample). -/
theorem lookups_swallow_http_and_app_errors :
    (∀ st b uid name,
      (getCountryIdByName (.response false st b) uid name).1 = .ok .null) ∧
    (∀ st fs e uid name, fs.lookup "error" = some e → truthy e = true →
      (getCountryIdByName (.response true st (some (.obj fs))) uid name).1 =
        .ok .null) ∧
    (∀ st b uid names,
      (getTagIdsByNames (.response false st b) uid names).1 =
        .ok (.arr [])) ∧
    (∀ st fs e uid names, fs.lookup "error" = some e → truthy e = true →
      (getTagIdsByNames (.response true st (some (.obj fs))) uid names).1 =
        .ok (.arr [])) :=
  ⟨fun st b uid name => getCountryIdByName_notok st b uid name,
   fun st fs e uid name hlk htr =>
     getCountryIdByName_apperr st fs e uid name hlk htr,
   fun st b uid names => getTagIdsByNames_notok st b uid names,
   fun st fs e uid names hlk htr =>
     getTagIdsByNames_apperr st fs e uid names hlk htr⟩

/-- C3 amended witness: an HTTP 500 and an Odoo application error both
degrade to no-match on concrete inputs. -/
theorem lookups_swallow_http_and_app_errors_witness :
    (getCountryIdByName (.response false 500 none) (.num 2) "España").1 =
      .ok .null ∧
    (getCountryIdByName (.response true 200
        (some (.obj [("error", .obj [("message", .str "boom")])])))
      (.num 2) "España").1 = .ok .null ∧
    (getTagIdsByNames (.response false 500 none) (.num 2) ["Ambos"]).1 =
      .ok (.arr []) ∧
    (getTagIdsByNames (.response true 200
        (some (.obj [("error", .obj [("message", .str "boom")])])))
      (.num 2) ["Ambos"]).1 = .ok (.arr []) :=
  ⟨lookups_swallow_http_and_app_errors.1 500 none (.num 2) "España",
   lookups_swallow_http_and_app_errors.2.1 200 _
     (.obj [("message", .str "boom")]) (.num 2) "España" rfl rfl,
   lookups_swallow_http_and_app_errors.2.2.1 500 none (.num 2) ["Ambos"],
   lookups_swallow_http_and_app_errors.2.2.2 200 _
     (.obj [("message", .str "boom")]) (.num 2) ["Ambos"] rfl rfl⟩

/-- C8: `getCountryIdByName` returns the no-match result immediately,
issuing zero fetch calls, whenever the country name is empty or equals
the Unknown sentinel — the literal "Desconocido" that `normalizeAIResult`
and the prompt use, which the spec renders in English as "Unknown" —
compared case-insensitively. -/
theorem getCountryIdByName_shortcircuit (oracle : FetchResult)
    (uid : JSVal) (name : String)
    (h : name = "" ∨ toLowerCase name = "desconocido") :
    getCountryIdByName oracle uid name = (.ok .null, 0) := by
  unfold getCountryIdByName
  rw [if_pos h]

/-- C8 witness: the empty name and the sentinel (in two casings) are
resolved to no-match with zero calls even against a remote that would
fail every request. -/
theorem getCountryIdByName_shortcircuit_witness :
    getCountryIdByName .reject (.num 2) "" = (.ok .null, 0) ∧
    getCountryIdByName .reject (.num 2) "Desconocido" = (.ok .null, 0) ∧
    getCountryIdByName .reject (.num 2) "DESCONOCIDO" = (.ok .null, 0) :=
  ⟨getCountryIdByName_shortcircuit .reject (.num 2) "" (Or.inl rfl),
   getCountryIdByName_shortcircuit .reject (.num 2) "Desconocido"
     (Or.inr rfl),
   getCountryIdByName_shortcircuit .reject (.num 2) "DESCONOCIDO"
     (Or.inr rfl)⟩

theorem authenticateOdoo_cached (cfg : OdooConfig) (uid : JSVal)
    (oracle : FetchResult) (hu : truthy uid = true) :
    authenticateOdoo cfg uid oracle = .ok uid := by
  unfold authenticateOdoo
  rw [if_pos hu]

/-- C9: with the session cache primed (so the create response alone
decides the outcome; the enrichment lookups here see swallowed HTTP
failures), when the create call responds without an application error,
`createOdooLead` returns the identifier exactly when the returned result
is a JS number, and otherwise fails with the non-numeric-id write error
— no lead identifier reaches the caller; a truthy error field instead
fails with the application-level write error. -/
theorem createOdooLead_result_gate (cfg : OdooConfig) (uid : JSVal)
    (authO : FetchResult) (createO : LeadVals → FetchResult)
    (ai : AIRecord) (body : LeadBody) (st : Nat)
    (fs : List (String × JSVal))
    (hu : truthy uid = true)
    (hco : ∀ v, createO v = .response true st (some (.obj fs))) :
    (truthy ((fs.lookup "error").getD .undefined) = false →
      createOdooLead cfg uid authO (.response false 500 none)
        (.response false 500 none) createO ai body =
        (match (fs.lookup "result").getD .undefined with
         | .num n => .ok (.num n)
         | _ => .error .nonNumericId)) ∧
    (truthy ((fs.lookup "error").getD .undefined) = true →
      ∃ m, createOdooLead cfg uid authO (.response false 500 none)
        (.response false 500 none) createO ai body =
        .error (.odooAppError m)) := by
  have hauth := authenticateOdoo_cached cfg uid authO hu
  constructor
  · intro herr
    simp [createOdooLead, hauth, getCountryIdByName_notok,
      getTagIdsByNames_notok, bind, Except.bind, hco, getProp, herr]
  · intro herr
    refine ⟨extractErrMsg ((fs.lookup "error").getD .undefined), ?_⟩
    simp [createOdooLead, hauth, getCountryIdByName_notok,
      getTagIdsByNames_notok, bind, Except.bind, hco, getProp, herr]

/-- C9 witness: with the cache primed, a create response whose result is
the string "oops" (and no error field) makes `createOdooLead` fail with
the non-numeric-id write error, so no identifier reaches the caller; the
same call with numeric result 7 returns lead id 7. -/
theorem createOdooLead_result_gate_witness :
    truthy (JSVal.num 2) = true ∧
    createOdooLead ⟨"https://o.example", "db", "u@example.com", "key", ""⟩
      (.num 2) .reject (.response false 500 none) (.response false 500 none)
      (fun _ => .response true 200 (some (.obj [("result", .str "oops")])))
      ⟨"maquina", "es", "España", "alta", "", "", ⟨none, none, none⟩⟩
      emptyBody = .error .nonNumericId ∧
    createOdooLead ⟨"https://o.example", "db", "u@example.com", "key", ""⟩
      (.num 2) .reject (.response false 500 none) (.response false 500 none)
      (fun _ => .response true 200 (some (.obj [("result", .num 7)])))
      ⟨"maquina", "es", "España", "alta", "", "", ⟨none, none, none⟩⟩
      emptyBody = .ok (.num 7) := by
  refine ⟨rfl, ?_, ?_⟩
  · exact (createOdooLead_result_gate
      ⟨"https://o.example", "db", "u@example.com", "key", ""⟩ (.num 2)
      .reject
      (fun _ => .response true 200 (some (.obj [("result", .str "oops")])))
      ⟨"maquina", "es", "España", "alta", "", "", ⟨none, none, none⟩⟩
      emptyBody 200 [("result", .str "oops")] rfl (fun v => rfl)).1 rfl
  · exact (createOdooLead_result_gate
      ⟨"https://o.example", "db", "u@example.com", "key", ""⟩ (.num 2)
      .reject
      (fun _ => .response true 200 (some (.obj [("result", .num 7)])))
      ⟨"maquina", "es", "España", "alta", "", "", ⟨none, none, none⟩⟩
      emptyBody 200 [("result", .num 7)] rfl (fun v => rfl)).1 rfl
